import Mathlib

/-!
Verification of the blacklist-check match-resolution and cache-aside engine.

Shallow embedding of:
  * `internal/store/blacklist.go` — `service.CheckRequest`, `service.CheckResult`,
    `BlacklistService.CheckBlacklist` (the cache-aside coordinator and the tiered
    match-resolution engine), and the `BlacklistRecord` row type;
  * `internal/api/handlers.go` — `Handler.CheckBlacklist` request validation and
    the translation of the decoded JSON body into a `service.CheckRequest`.

External collaborators (PostgreSQL store queries, Redis, the JSON text layer of
`encoding/json`) are modelled as parameters or as a structured JSON value type:
the two store calls (`GetByNIK`, `GetByFuzzyMatch`) are oracle functions supplied
in a `Deps` record, the Redis cache is an association list of key/payload pairs
with explicit read/write failure flags, and a cached payload is a JSON value
(`JValue`); Go's `json.Marshal`/`json.Unmarshal` for `service.CheckResult` are
embedded as total encoding to, and partial decoding from, that value type.
-/

namespace BlacklistCheck

/-- Model of Go `time.Time` restricted to calendar dates (the system only ever
uses date-valued times: `birth_date` columns and request birth dates with no
intra-day component). Go's `time.Time.Equal` on such values coincides with
structural equality of the calendar date. -/
structure GoTime where
  year : Nat
  month : Nat
  day : Nat
deriving DecidableEq, Repr

/-- Go's `time.Time` zero value is January 1, year 1 (0001-01-01). A request
field left unset by the handler holds this value. -/
def GoTime.zero : GoTime := ⟨1, 1, 1⟩

/-- Left-pad the decimal representation of `n` with zeros to width `w`,
as Go's reference-layout date formatting does for each component. -/
def padNum (w : Nat) (n : Nat) : String :=
  let s := toString n
  (String.mk (List.replicate (w - s.length) '0')) ++ s

/-- `t.Format("2006-01-02")` — the fixed calendar layout used in the cache key
(`internal/store/blacklist.go:225`). -/
def GoTime.format (t : GoTime) : String :=
  padNum 4 t.year ++ "-" ++ padNum 2 t.month ++ "-" ++ padNum 2 t.day

/-- `store.BlacklistRecord` (`internal/store/blacklist.go:12-22`): a blacklist
row surfaced by either store query. `createdAt`/`updatedAt` are carried for
fidelity but never read by the resolution logic. -/
structure BlacklistRecord where
  id : Int
  nik : String
  name : String
  birthPlace : String
  birthDate : GoTime
  reason : String
  createdAt : GoTime
  updatedAt : GoTime
  similarity : Rat
deriving DecidableEq, Repr

/-- `service.CheckRequest` (`internal/store/blacklist.go:201-206`): plain
(non-pointer) fields, so "absent" optional data is the Go zero value —
`""` for strings and `GoTime.zero` for the birth date. -/
structure CheckRequest where
  Name : String
  NIK : String
  BirthPlace : String
  BirthDate : GoTime
deriving DecidableEq, Repr

/-- `service.CheckResult` (`internal/store/blacklist.go:209-213`). -/
structure CheckResult where
  Blacklisted : Bool
  Details : String
  MatchType : String
deriving DecidableEq, Repr

/-- The error value returned by a failing store call (modelled opaquely as the
Go error's content). -/
abbrev ProviderError := String

/-- The error returned by `CheckBlacklist`: Go wraps the store error with
`fmt.Errorf("...: %w", err)`, which keeps the original error reachable via
`errors.Unwrap`; the constructor records which wrap message was used and
`cause` recovers the wrapped provider error. -/
inductive ServiceError where
  | nikLookup (cause : ProviderError)      -- "error checking NIK: %w"
  | fuzzySearch (cause : ProviderError)    -- "error searching by fuzzy match: %w"
deriving DecidableEq, Repr

/-- The provider error wrapped inside a `ServiceError` (Go `errors.Unwrap`). -/
def ServiceError.cause : ServiceError → ProviderError
  | .nikLookup e => e
  | .fuzzySearch e => e

/-- The two external store capabilities consumed by the service
(`store.BlacklistStore`, `internal/store/blacklist.go:25-30`), as oracle
functions. `getByFuzzyMatch` receives `(name, birthPlace, birthDate)`: the
service always passes pointers to its (zero-defaulted) request fields
(`internal/store/blacklist.go:263`), so the store-side `nil` branches are
unreachable from this caller and the oracle takes plain values. -/
structure Deps where
  getByNIK : String → Except ProviderError (Option BlacklistRecord)
  getByFuzzyMatch : String → String → GoTime → Except ProviderError (List BlacklistRecord)

/-- A record of one store invocation, for counting provider calls. -/
inductive ProviderCall where
  | nikCall (nik : String)
  | fuzzyCall (name : String) (birthPlace : String) (birthDate : GoTime)
deriving DecidableEq, Repr

/-- The fuzzy-full predicate of the first scan
(`internal/store/blacklist.go:271`): `record.BirthPlace == req.BirthPlace &&
record.BirthDate.Equal(req.BirthDate)`. -/
def isFullMatch (req : CheckRequest) (rec : BlacklistRecord) : Bool :=
  rec.birthPlace == req.BirthPlace && decide (rec.birthDate = req.BirthDate)

/-- The fuzzy-date predicate of the second scan
(`internal/store/blacklist.go:289`): `record.BirthDate.Equal(req.BirthDate)`. -/
def isDateMatch (req : CheckRequest) (rec : BlacklistRecord) : Bool :=
  decide (rec.birthDate = req.BirthDate)

/-- The "no blacklist record found" result (`internal/store/blacklist.go:307-310`);
`Details` is the Go zero value `""`. -/
def noMatchResult : CheckResult :=
  { Blacklisted := false, Details := "", MatchType := "no_match" }

/-- The two break-at-first-hit scans over the fuzzy candidate list plus the
no-match fallback (`internal/store/blacklist.go:268-314`). Each Go
`for ... break` loop is the first list element satisfying the predicate
(`List.find?`). The Go code guards both scans with `if len(records) > 0`;
on an empty list both scans find nothing and the fallback fires either way,
so the guard is dropped without changing the function. -/
def fuzzyClassify (req : CheckRequest) (records : List BlacklistRecord) : CheckResult :=
  match records.find? (isFullMatch req) with
  | some rec => { Blacklisted := true, Details := rec.reason, MatchType := "fuzzy_full_match" }
  | none =>
    match records.find? (isDateMatch req) with
    | some rec => { Blacklisted := true, Details := rec.reason, MatchType := "fuzzy_date_match" }
    | none => noMatchResult

/-- The fuzzy branch of `CheckBlacklist` (`internal/store/blacklist.go:262-315`):
one `GetByFuzzyMatch` call, then classification; a store error is wrapped and
returned before anything is cached. Alongside the result, the list of store
invocations made is returned. -/
def fuzzyResolve (d : Deps) (req : CheckRequest) :
    Except ServiceError CheckResult × List ProviderCall :=
  match d.getByFuzzyMatch req.Name req.BirthPlace req.BirthDate with
  | .error e => (.error (.fuzzySearch e), [.fuzzyCall req.Name req.BirthPlace req.BirthDate])
  | .ok records => (.ok (fuzzyClassify req records), [.fuzzyCall req.Name req.BirthPlace req.BirthDate])

/-- The uncached resolution portion of `CheckBlacklist`
(`internal/store/blacklist.go:240-315`): the exact-NIK tier when `req.NIK` is
non-empty, falling through to the fuzzy tiers only while
`result.Blacklisted` is still false. -/
def resolveUncached (d : Deps) (req : CheckRequest) :
    Except ServiceError CheckResult × List ProviderCall :=
  if req.NIK = "" then
    fuzzyResolve d req
  else
    match d.getByNIK req.NIK with
    | .error e => (.error (.nikLookup e), [.nikCall req.NIK])
    | .ok (some record) =>
        (.ok { Blacklisted := true, Details := record.reason, MatchType := "exact_nik" },
         [.nikCall req.NIK])
    | .ok none =>
        match fuzzyResolve d req with
        | (res, calls) => (res, .nikCall req.NIK :: calls)

/-- Cache-key derivation (`internal/store/blacklist.go:218-226`):
`blacklist:nik:<NIK>` when a NIK is present, otherwise
`blacklist:name:<Name>:<BirthPlace>:<BirthDate.Format("2006-01-02")>`. -/
def cacheKey (req : CheckRequest) : String :=
  if req.NIK ≠ "" then
    "blacklist:nik:" ++ req.NIK
  else
    "blacklist:name:" ++ req.Name ++ ":" ++ req.BirthPlace ++ ":" ++ req.BirthDate.format

/-- A JSON value, modelling the self-describing payload stored in the cache.
Go's `encoding/json` text layer (bytes ↔ value) is the external library; the
struct ↔ value mapping below is what the service's marshal/unmarshal calls
contribute. -/
inductive JValue where
  | jBool (b : Bool)
  | jString (s : String)
  | jObject (fields : List (String × JValue))

/-- `json.Marshal(result)` for `service.CheckResult`: the struct has no json
tags, so the keys are the exported Go field names. -/
def marshalResult (r : CheckResult) : JValue :=
  .jObject [("Blacklisted", .jBool r.Blacklisted),
            ("Details", .jString r.Details),
            ("MatchType", .jString r.MatchType)]

/-- First value bound to key `k` in a JSON object's field list. -/
def jLookup (fields : List (String × JValue)) (k : String) : Option JValue :=
  (fields.find? (fun f => f.1 == k)).map (fun f => f.2)

/-- `json.Unmarshal(payload, &result)` for `service.CheckResult`: the payload
must be an object; a field that is present must have the field's type, a field
that is absent leaves the Go zero value; unknown keys are ignored. (Go's
case-insensitive key fallback and last-duplicate-wins rule are irrelevant to
payloads this service writes and are elided.) `none` is a deserialization
failure, which the coordinator treats as a miss. -/
def unmarshalResult (v : JValue) : Option CheckResult :=
  match v with
  | .jObject fields =>
    let bl : Option Bool :=
      match jLookup fields "Blacklisted" with
      | some (.jBool b) => some b
      | none => some false
      | some _ => none
    let det : Option String :=
      match jLookup fields "Details" with
      | some (.jString s) => some s
      | none => some ""
      | some _ => none
    let mt : Option String :=
      match jLookup fields "MatchType" with
      | some (.jString s) => some s
      | none => some ""
      | some _ => none
    match bl, det, mt with
    | some b, some s, some m => some { Blacklisted := b, Details := s, MatchType := m }
    | _, _, _ => none
  | _ => none

/-- The Redis cache contents: key/payload pairs, most recent binding first
(a `SET` prepends, a `GET` takes the first binding). -/
abbrev Cache := List (String × JValue)

/-- Failure injection for the external cache: whether the `GET` and the `SET`
transport calls fail on this invocation. -/
structure CacheBehavior where
  readFails : Bool
  writeFails : Bool
deriving DecidableEq, Repr

/-- The cache-read step (`internal/store/blacklist.go:229-238`): a transport
failure, an absent key, and a payload that fails to unmarshal all return
`none` (fall through to resolution); only a clean read of a well-formed
payload is a hit. -/
def cacheRead (cb : CacheBehavior) (cache : Cache) (key : String) : Option CheckResult :=
  if cb.readFails then none
  else
    match (cache.find? (fun e => e.1 == key)).map (fun e => e.2) with
    | some payload => unmarshalResult payload
    | none => none

/-- A successful `SET` with the 24-hour expiry prepends the binding; a failed
`SET` is logged and leaves the cache unchanged (`internal/store/blacklist.go:317-328`). -/
def cacheWrite (cb : CacheBehavior) (cache : Cache) (key : String) (payload : JValue) : Cache :=
  if cb.writeFails then cache else (key, payload) :: cache

/-- `BlacklistService.CheckBlacklist` (`internal/store/blacklist.go:216-331`):
cache read; on hit return the cached result with no store call; on miss run
the tiered resolution; a resolution error returns before the cache write;
otherwise marshal and attempt the write-back (non-fatal on failure) and return
the resolved result. Returns (outcome-or-error, store invocations, new cache). -/
def checkBlacklist (d : Deps) (cb : CacheBehavior) (cache : Cache) (req : CheckRequest) :
    Except ServiceError CheckResult × List ProviderCall × Cache :=
  let key := cacheKey req
  match cacheRead cb cache key with
  | some result => (.ok result, [], cache)
  | none =>
    match resolveUncached d req with
    | (.error e, calls) => (.error e, calls, cache)
    | (.ok result, calls) =>
        (.ok result, calls, cacheWrite cb cache key (marshalResult result))

/-! ### HTTP handler (`internal/api/handlers.go`) -/

/-- `api.checkRequest` (`internal/api/handlers.go:47-52`): the decoded JSON
body, with pointer fields for the optional members. -/
structure ApiCheckRequest where
  name : String
  nik : Option String
  birthPlace : Option String
  birthDate : Option GoTime
deriving DecidableEq, Repr

/-- The regex `^\d{16}$` (`internal/api/handlers.go:17`): exactly 16 ASCII
digit characters (Go's `\d` matches only ASCII digits; 16 ASCII digits are
16 bytes, so byte- and character-counting agree on every matching string). -/
def nikMatches (s : String) : Bool :=
  s.length == 16 && s.toList.all (fun c => c.isDigit)

/-- Translation of the decoded body into the service request
(`internal/api/handlers.go:84-96`): the service request starts from zero
values and each optional field is copied only when present, so an absent
field stays `""` / the zero time. -/
def toServiceRequest (r : ApiCheckRequest) : CheckRequest :=
  { Name := r.name
    NIK := r.nik.getD ""
    BirthPlace := r.birthPlace.getD ""
    BirthDate := r.birthDate.getD GoTime.zero }

/-- What the handler does before any service call: reject with HTTP 400 and a
message, or forward a service request. -/
inductive HandlerAction where
  | badRequest (msg : String)
  | callService (req : CheckRequest)
deriving DecidableEq, Repr

/-- The validation prefix of `Handler.CheckBlacklist`
(`internal/api/handlers.go:62-99`): body-decode failure (modelled as `none`),
then `len(req.Name) < 3` (Go `len` counts bytes), then a present NIK failing
the 16-digit regex, each rejected with 400 before the service is invoked;
anything else is forwarded. -/
def handleCheck (body : Option ApiCheckRequest) : HandlerAction :=
  match body with
  | none => .badRequest "Invalid request body"
  | some req =>
    if req.name.utf8ByteSize < 3 then
      .badRequest "Name must be at least 3 characters long"
    else
      match req.nik with
      | some nik =>
          if !nikMatches nik then .badRequest "NIK must be a 16-digit number"
          else .callService (toServiceRequest req)
      | none => .callService (toServiceRequest req)

/-! ### Theorems -/

/-- Helper: the struct-to-JSON-value encoding of a `CheckResult` decodes back
to the same value. -/
lemma unmarshal_marshal (r : CheckResult) :
    unmarshalResult (marshalResult r) = some r := rfl

/-- Helper: classification of a fuzzy candidate list always produces one of
the three shapes of result. -/
lemma fuzzyClassify_shapes (req : CheckRequest) (records : List BlacklistRecord) :
    (∃ s, fuzzyClassify req records =
      { Blacklisted := true, Details := s, MatchType := "fuzzy_full_match" }) ∨
    (∃ s, fuzzyClassify req records =
      { Blacklisted := true, Details := s, MatchType := "fuzzy_date_match" }) ∨
    fuzzyClassify req records = noMatchResult := by
  rcases hf : records.find? (isFullMatch req) with - | rec
  · rcases hd : records.find? (isDateMatch req) with - | rec
    · exact .inr (.inr (by simp only [fuzzyClassify, hf, hd]))
    · exact .inr (.inl ⟨rec.reason, by simp only [fuzzyClassify, hf, hd]⟩)
  · exact .inl ⟨rec.reason, by simp only [fuzzyClassify, hf]⟩

/-- Helper: every successful outcome of the uncached resolution is one of the
four shapes produced by the tiered policy. -/
lemma resolveUncached_ok_shapes (d : Deps) (req : CheckRequest) (r : CheckResult)
    (h : (resolveUncached d req).1 = .ok r) :
    (∃ s, r = { Blacklisted := true, Details := s, MatchType := "exact_nik" }) ∨
    (∃ s, r = { Blacklisted := true, Details := s, MatchType := "fuzzy_full_match" }) ∨
    (∃ s, r = { Blacklisted := true, Details := s, MatchType := "fuzzy_date_match" }) ∨
    r = noMatchResult := by
  have hfz : ∀ (h' : (fuzzyResolve d req).1 = .ok r),
      (∃ s, r = { Blacklisted := true, Details := s, MatchType := "fuzzy_full_match" }) ∨
      (∃ s, r = { Blacklisted := true, Details := s, MatchType := "fuzzy_date_match" }) ∨
      r = noMatchResult := by
    intro h'
    rcases hg : d.getByFuzzyMatch req.Name req.BirthPlace req.BirthDate with e | records
    · rw [fuzzyResolve, hg] at h'; cases h'
    · rw [fuzzyResolve, hg] at h'
      have : fuzzyClassify req records = r := by
        have := h'
        injection this
      rw [← this]
      exact fuzzyClassify_shapes req records
  by_cases hn : req.NIK = ""
  · rw [resolveUncached, if_pos hn] at h
    exact .inr (hfz h)
  · rcases hk : d.getByNIK req.NIK with e | rec
    · simp only [resolveUncached, if_neg hn, hk] at h
      injection h
    · rcases rec with - | rec
      · simp only [resolveUncached, if_neg hn, hk] at h
        have h' : (fuzzyResolve d req).1 = .ok r := by
          rcases hfr : fuzzyResolve d req with ⟨res, calls⟩
          rw [hfr] at h
          exact h
        exact .inr (hfz h')
      · simp only [resolveUncached, if_neg hn, hk] at h
        refine .inl ⟨rec.reason, ?_⟩
        have hr := Except.ok.inj h
        exact hr.symm

/-- C5: every outcome produced by the resolution engine satisfies the
invariants — `matchKind = none` (code string `"no_match"`) iff
`blacklisted = false`; `details` is empty whenever not blacklisted; and every
positive match kind (`"exact_nik"`, `"fuzzy_full_match"`,
`"fuzzy_date_match"`) has `blacklisted = true`. -/
theorem outcome_invariants (d : Deps) (req : CheckRequest) (r : CheckResult)
    (h : (resolveUncached d req).1 = .ok r) :
    (r.MatchType = "no_match" ↔ r.Blacklisted = false) ∧
    (r.Blacklisted = false → r.Details = "") ∧
    ((r.MatchType = "exact_nik" ∨ r.MatchType = "fuzzy_full_match" ∨
        r.MatchType = "fuzzy_date_match") → r.Blacklisted = true) := by
  rcases resolveUncached_ok_shapes d req r h with ⟨s, rfl⟩ | ⟨s, rfl⟩ | ⟨s, rfl⟩ | rfl <;>
    refine ⟨?_, ?_, ?_⟩ <;> simp [noMatchResult]

/-- C5 witness: the invariants hold at a concrete resolved outcome. -/
theorem outcome_invariants_witness :
    (noMatchResult.MatchType = "no_match" ↔ noMatchResult.Blacklisted = false) ∧
    (noMatchResult.Blacklisted = false → noMatchResult.Details = "") ∧
    ((noMatchResult.MatchType = "exact_nik" ∨ noMatchResult.MatchType = "fuzzy_full_match" ∨
        noMatchResult.MatchType = "fuzzy_date_match") → noMatchResult.Blacklisted = true) :=
  outcome_invariants ⟨fun _ => .ok none, fun _ _ _ => .ok []⟩
    ⟨"John Doe", "", "", GoTime.zero⟩ noMatchResult rfl

/-- C9: serializing a `CheckResult` to the cached payload and deserializing it
reproduces an equal value, for every combination of fields (hence every
`matchKind`). -/
theorem marshal_unmarshal_roundtrip (r : CheckResult) :
    unmarshalResult (marshalResult r) = some r := rfl

/-- C4 counterexample: two fuzzy-keyed requests identical except that one
omits `birthPlace` and the other supplies it as the empty string derive the
SAME cache key, refuting the claimed distinct-sentinel encoding. -/
theorem cache_key_omitted_eq_empty_birthPlace :
    cacheKey (toServiceRequest ⟨"John Doe", none, none, some ⟨1990, 1, 1⟩⟩) =
      cacheKey (toServiceRequest ⟨"John Doe", none, some "", some ⟨1990, 1, 1⟩⟩) := rfl

/-- C4 amended: the handler encodes absent optional fields as the Go zero
value, not as a distinct sentinel, so for every fuzzy-keyed request an
omitted `birthPlace` collides with `birthPlace = ""`, and an omitted
`birthDate` collides with `birthDate = 0001-01-01` (the zero time). -/
theorem cache_key_zero_value_collision (name : String) (bp : Option String)
    (bd : Option GoTime) :
    cacheKey (toServiceRequest ⟨name, none, none, bd⟩) =
      cacheKey (toServiceRequest ⟨name, none, some "", bd⟩) ∧
    cacheKey (toServiceRequest ⟨name, none, bp, none⟩) =
      cacheKey (toServiceRequest ⟨name, none, bp, some GoTime.zero⟩) :=
  ⟨rfl, rfl⟩

/-- The request of the C3 counterexample: no NIK, no birth place, and the
birth date left absent by the handler, i.e. the zero time. -/
def c3Request : CheckRequest :=
  { Name := "John Doe", NIK := "", BirthPlace := "", BirthDate := GoTime.zero }

/-- A type-valid similarity-search candidate whose stored birth date happens
to be the zero date 0001-01-01. -/
def c3Candidate : BlacklistRecord :=
  { id := 1, nik := "3201019999990001", name := "John Doe", birthPlace := "Bandung",
    birthDate := GoTime.zero, reason := "fraud", createdAt := ⟨2024, 1, 1⟩,
    updatedAt := ⟨2024, 1, 1⟩, similarity := 4/5 }

/-- Providers for the C3 counterexample: the exact lookup finds nothing and
the similarity search returns the single candidate above. -/
def c3Deps : Deps :=
  { getByNIK := fun _ => .ok none
    getByFuzzyMatch := fun _ _ _ => .ok [c3Candidate] }

/-- C3 counterexample: on a request lacking both `identityNumber` and
`birthDate`, the fuzzy tiers are NOT skipped — the similarity provider is
invoked with the zero date, and a candidate whose stored birth date equals
the zero date produces a `fuzzy_date_match` outcome rather than `none`. -/
theorem fuzzy_tiers_not_skipped_without_birthdate :
    (checkBlacklist c3Deps ⟨false, false⟩ [] c3Request).1 =
      .ok { Blacklisted := true, Details := "fraud", MatchType := "fuzzy_date_match" } ∧
    (checkBlacklist c3Deps ⟨false, false⟩ [] c3Request).2.1 =
      [.fuzzyCall "John Doe" "" GoTime.zero] := ⟨rfl, rfl⟩

/-- C3 amended: on a request lacking `identityNumber` and `birthDate` the
fuzzy tiers still run, with the absent birth date represented as the zero
time 0001-01-01; the outcome is `no_match` whenever no returned candidate's
stored birth date equals the zero date (so with any real provider, whose
records carry genuine birth dates, name-similarity candidates alone never
yield a positive result). -/
theorem no_birthdate_resolves_none (d : Deps) (req : CheckRequest)
    (records : List BlacklistRecord)
    (hnik : req.NIK = "")
    (hbd : req.BirthDate = GoTime.zero)
    (hfuzzy : d.getByFuzzyMatch req.Name req.BirthPlace req.BirthDate = .ok records)
    (hnozero : ∀ rec ∈ records, rec.birthDate ≠ GoTime.zero) :
    (resolveUncached d req).1 = .ok noMatchResult := by
  have hfull : records.find? (isFullMatch req) = none := by
    rw [List.find?_eq_none]
    intro rec hrec
    simp only [isFullMatch, Bool.and_eq_true, decide_eq_true_eq]
    rintro ⟨-, h⟩
    exact hnozero rec hrec (h.trans hbd)
  have hdate : records.find? (isDateMatch req) = none := by
    rw [List.find?_eq_none]
    intro rec hrec
    simp only [isDateMatch, decide_eq_true_eq]
    intro h
    exact hnozero rec hrec (h.trans hbd)
  simp only [resolveUncached, if_pos hnik, fuzzyResolve, hfuzzy, fuzzyClassify, hfull, hdate]

/-- C3 amended witness: concrete instantiation with one name-similarity
candidate carrying a genuine birth date; the outcome is `no_match`. -/
theorem no_birthdate_resolves_none_witness :
    (resolveUncached
        ⟨fun _ => .ok none,
         fun _ _ _ => .ok [{ c3Candidate with birthDate := ⟨1990, 1, 1⟩ }]⟩
        c3Request).1 = .ok noMatchResult :=
  no_birthdate_resolves_none _ c3Request [{ c3Candidate with birthDate := ⟨1990, 1, 1⟩ }]
    rfl rfl rfl (by decide)

/-- C1: on a cache miss, a request with a non-empty NIK that the exact lookup
resolves to a record yields `{Blacklisted: true, Details: record.reason,
MatchType: "exact_nik"}` (the spec's `exact` kind), and the similarity
provider is never invoked, whatever fuzzy candidates it would return. -/
theorem exact_tier_short_circuits (d : Deps) (cb : CacheBehavior) (cache : Cache)
    (req : CheckRequest) (record : BlacklistRecord)
    (hmiss : cacheRead cb cache (cacheKey req) = none)
    (hnik : req.NIK ≠ "")
    (hfound : d.getByNIK req.NIK = .ok (some record)) :
    (checkBlacklist d cb cache req).1 =
      .ok { Blacklisted := true, Details := record.reason, MatchType := "exact_nik" } ∧
    (checkBlacklist d cb cache req).2.1 = [.nikCall req.NIK] := by
  simp [checkBlacklist, hmiss, resolveUncached, if_neg hnik, hfound]

/-- C1 witness: concrete cache-missing request with a resolving NIK and a
similarity provider that would return a matching candidate; the outcome is
exact and only the NIK lookup was made. -/
theorem exact_tier_short_circuits_witness :
    (checkBlacklist
        ⟨fun _ => .ok (some c3Candidate), fun _ _ _ => .ok [c3Candidate]⟩
        ⟨false, false⟩ []
        ⟨"John Doe", "3201019999990001", "Bandung", GoTime.zero⟩).1 =
      .ok { Blacklisted := true, Details := "fraud", MatchType := "exact_nik" } ∧
    (checkBlacklist
        ⟨fun _ => .ok (some c3Candidate), fun _ _ _ => .ok [c3Candidate]⟩
        ⟨false, false⟩ []
        ⟨"John Doe", "3201019999990001", "Bandung", GoTime.zero⟩).2.1 =
      [.nikCall "3201019999990001"] :=
  exact_tier_short_circuits _ _ _ _ c3Candidate rfl (by decide) rfl

/-- C2: when the exact tier does not fire, the engine scans the provider's
ranked list in order: the first candidate matching on both birth place and
birth date (`List.find?` = first hit in list order, i.e. the provider's
similarity-descending order) yields `fuzzy_full_match` with that candidate's
reason; only when no such candidate exists does the second scan return
`fuzzy_date_match` with the reason of the first candidate matching on birth
date alone. -/
theorem fuzzy_tier_order (d : Deps) (req : CheckRequest)
    (records : List BlacklistRecord)
    (hexact : req.NIK = "" ∨ d.getByNIK req.NIK = .ok none)
    (hfuzzy : d.getByFuzzyMatch req.Name req.BirthPlace req.BirthDate = .ok records) :
    (∀ c, records.find? (isFullMatch req) = some c →
      (resolveUncached d req).1 =
        .ok { Blacklisted := true, Details := c.reason, MatchType := "fuzzy_full_match" }) ∧
    (records.find? (isFullMatch req) = none →
      ∀ c, records.find? (isDateMatch req) = some c →
        (resolveUncached d req).1 =
          .ok { Blacklisted := true, Details := c.reason, MatchType := "fuzzy_date_match" }) := by
  have hres : (resolveUncached d req).1 = .ok (fuzzyClassify req records) := by
    by_cases hn : req.NIK = ""
    · simp only [resolveUncached, if_pos hn, fuzzyResolve, hfuzzy]
    · have hok : d.getByNIK req.NIK = .ok none := hexact.resolve_left hn
      simp only [resolveUncached, if_neg hn, hok, fuzzyResolve, hfuzzy]
  refine ⟨fun c hc => ?_, fun hnone c hc => ?_⟩
  · rw [hres]
    simp only [fuzzyClassify, hc]
  · rw [hres]
    simp only [fuzzyClassify, hnone, hc]

/-- C2 witness: two candidates both matching on birth date, the first also on
birth place: the first scan picks it (`fuzzy_full_match`); with the full
match removed, the second scan picks the first date-only match. -/
theorem fuzzy_tier_order_witness :
    (resolveUncached
        ⟨fun _ => .ok none,
         fun _ _ _ => .ok [{ c3Candidate with birthPlace := "", reason := "first" },
                           { c3Candidate with reason := "second" }]⟩
        c3Request).1 =
      .ok { Blacklisted := true, Details := "first", MatchType := "fuzzy_full_match" } :=
  (fuzzy_tier_order _ c3Request
      [{ c3Candidate with birthPlace := "", reason := "first" },
       { c3Candidate with reason := "second" }]
      (Or.inl rfl) rfl).1
    { c3Candidate with birthPlace := "", reason := "first" } rfl

/-- C6: cache trouble never changes the outcome. A cache read that fails in
any way (transport error, absent key, malformed payload — uniformly
`cacheRead = none`) leaves the returned outcome exactly the engine's
resolution; and with the read behavior fixed, a failing cache write returns
the same outcome as a succeeding one, surfacing no error. -/
theorem cache_failure_harmless (d : Deps) (cache : Cache) (req : CheckRequest)
    (rf wf : Bool)
    (hmiss : cacheRead ⟨rf, wf⟩ cache (cacheKey req) = none) :
    (checkBlacklist d ⟨rf, wf⟩ cache req).1 = (resolveUncached d req).1 ∧
    (checkBlacklist d ⟨rf, true⟩ cache req).1 =
      (checkBlacklist d ⟨rf, false⟩ cache req).1 := by
  have hmiss' : ∀ b : Bool, cacheRead ⟨rf, b⟩ cache (cacheKey req) = none :=
    fun _ => hmiss
  constructor
  · simp only [checkBlacklist, hmiss]
    rcases hres : resolveUncached d req with ⟨res, calls⟩
    cases res <;> rfl
  · simp only [checkBlacklist, hmiss' true, hmiss' false]
    rcases hres : resolveUncached d req with ⟨res, calls⟩
    cases res <;> rfl

/-- C6 witness: with a failing cache read over an empty cache and empty
candidates, the returned outcome is the engine's `no_match` either way. -/
theorem cache_failure_harmless_witness :
    (checkBlacklist ⟨fun _ => .ok none, fun _ _ _ => .ok []⟩ ⟨true, true⟩ []
        ⟨"John Doe", "", "", GoTime.zero⟩).1 =
      (resolveUncached ⟨fun _ => .ok none, fun _ _ _ => .ok []⟩
        ⟨"John Doe", "", "", GoTime.zero⟩).1 ∧
    (checkBlacklist ⟨fun _ => .ok none, fun _ _ _ => .ok []⟩ ⟨true, true⟩ []
        ⟨"John Doe", "", "", GoTime.zero⟩).1 =
      (checkBlacklist ⟨fun _ => .ok none, fun _ _ _ => .ok []⟩ ⟨true, false⟩ []
        ⟨"John Doe", "", "", GoTime.zero⟩).1 :=
  cache_failure_harmless ⟨fun _ => .ok none, fun _ _ _ => .ok []⟩ []
    ⟨"John Doe", "", "", GoTime.zero⟩ true true rfl

/-- Helper: on a cache miss, a resolution error is returned as-is and the
cache is left untouched. -/
lemma checkBlacklist_of_resolve_error (d : Deps) (cb : CacheBehavior) (cache : Cache)
    (req : CheckRequest) (se : ServiceError)
    (hmiss : cacheRead cb cache (cacheKey req) = none)
    (h : (resolveUncached d req).1 = .error se) :
    (checkBlacklist d cb cache req).1 = .error se ∧
    (checkBlacklist d cb cache req).2.2 = cache := by
  rcases hres : resolveUncached d req with ⟨res, calls⟩
  rw [hres] at h
  have h' : res = .error se := h
  subst h'
  simp only [checkBlacklist, hmiss, hres]
  constructor <;> trivial

/-- C7: a provider error — from the exact NIK lookup on a request with a
non-empty NIK, or from the similarity search when the exact tier did not
fire — is propagated to the caller as a resolution failure whose unwrapped
cause is the provider's error; no outcome is synthesized and the cache is
unchanged on that invocation. -/
theorem provider_error_propagated (d : Deps) (cb : CacheBehavior) (cache : Cache)
    (req : CheckRequest) (e : ProviderError)
    (hmiss : cacheRead cb cache (cacheKey req) = none)
    (herr : (req.NIK ≠ "" ∧ d.getByNIK req.NIK = .error e) ∨
            ((req.NIK = "" ∨ d.getByNIK req.NIK = .ok none) ∧
             d.getByFuzzyMatch req.Name req.BirthPlace req.BirthDate = .error e)) :
    ∃ se : ServiceError, (checkBlacklist d cb cache req).1 = .error se ∧
      se.cause = e ∧ (checkBlacklist d cb cache req).2.2 = cache := by
  rcases herr with ⟨hn, hk⟩ | ⟨hex, hf⟩
  · have hr : (resolveUncached d req).1 = .error (.nikLookup e) := by
      simp only [resolveUncached, if_neg hn, hk]
    obtain ⟨h1, h2⟩ := checkBlacklist_of_resolve_error d cb cache req _ hmiss hr
    exact ⟨.nikLookup e, h1, rfl, h2⟩
  · have hr : (resolveUncached d req).1 = .error (.fuzzySearch e) := by
      by_cases hn : req.NIK = ""
      · simp only [resolveUncached, if_pos hn, fuzzyResolve, hf]
      · have hok : d.getByNIK req.NIK = .ok none := hex.resolve_left hn
        simp only [resolveUncached, if_neg hn, hok, fuzzyResolve, hf]
    obtain ⟨h1, h2⟩ := checkBlacklist_of_resolve_error d cb cache req _ hmiss hr
    exact ⟨.fuzzySearch e, h1, rfl, h2⟩

/-- C7 witness: a failing similarity search on a NIK-less request surfaces as
a resolution failure with the provider's error as cause, leaving the cache
empty. -/
theorem provider_error_propagated_witness :
    ∃ se : ServiceError,
      (checkBlacklist ⟨fun _ => .ok none, fun _ _ _ => .error "db down"⟩
          ⟨false, false⟩ [] ⟨"John Doe", "", "", GoTime.zero⟩).1 = .error se ∧
      se.cause = "db down" ∧
      (checkBlacklist ⟨fun _ => .ok none, fun _ _ _ => .error "db down"⟩
          ⟨false, false⟩ [] ⟨"John Doe", "", "", GoTime.zero⟩).2.2 = [] :=
  provider_error_propagated ⟨fun _ => .ok none, fun _ _ _ => .error "db down"⟩
    ⟨false, false⟩ [] ⟨"John Doe", "", "", GoTime.zero⟩ "db down" rfl
    (Or.inr ⟨Or.inl rfl, rfl⟩)

/-- Helper: a clean cache hit returns the cached result with no provider call
and an unchanged cache. -/
lemma checkBlacklist_hit (d : Deps) (cb : CacheBehavior) (cache : Cache)
    (req : CheckRequest) (result : CheckResult)
    (hhit : cacheRead cb cache (cacheKey req) = some result) :
    checkBlacklist d cb cache req = (.ok result, [], cache) := by
  simp only [checkBlacklist, hhit]

/-- Helper: on a miss with a successful resolution, the outcome is returned
together with the write-back. -/
lemma checkBlacklist_miss_ok (d : Deps) (cb : CacheBehavior) (cache : Cache)
    (req : CheckRequest) (result : CheckResult) (calls : List ProviderCall)
    (hmiss : cacheRead cb cache (cacheKey req) = none)
    (hres : resolveUncached d req = (.ok result, calls)) :
    checkBlacklist d cb cache req =
      (.ok result, calls, cacheWrite cb cache (cacheKey req) (marshalResult result)) := by
  simp only [checkBlacklist, hmiss, hres]

/-- Helper: on a miss with a failing resolution, the error is returned and the
cache untouched. -/
lemma checkBlacklist_miss_error (d : Deps) (cb : CacheBehavior) (cache : Cache)
    (req : CheckRequest) (se : ServiceError) (calls : List ProviderCall)
    (hmiss : cacheRead cb cache (cacheKey req) = none)
    (hres : resolveUncached d req = (.error se, calls)) :
    checkBlacklist d cb cache req = (.error se, calls, cache) := by
  simp only [checkBlacklist, hmiss, hres]

/-- C8: with a functioning cache (no read/write failure) and no interleaving
writes, a first successful `CheckBlacklist` followed by the same request
yields the identical outcome, and the second invocation makes no provider
call at all (cache hit). -/
theorem second_call_hits_cache (d : Deps) (cache : Cache) (req : CheckRequest)
    (r : CheckResult) (calls : List ProviderCall) (cache' : Cache)
    (h : checkBlacklist d ⟨false, false⟩ cache req = (.ok r, calls, cache')) :
    checkBlacklist d ⟨false, false⟩ cache' req = (.ok r, [], cache') := by
  rcases hread : cacheRead ⟨false, false⟩ cache (cacheKey req) with - | result
  · rcases hres : resolveUncached d req with ⟨res, rcalls⟩
    cases res with
    | error e =>
      rw [checkBlacklist_miss_error d ⟨false, false⟩ cache req e rcalls hread hres] at h
      have h1 : (Except.error e : Except ServiceError CheckResult) = .ok r :=
        congrArg Prod.fst h
      injection h1
    | ok result =>
      rw [checkBlacklist_miss_ok d ⟨false, false⟩ cache req result rcalls hread hres] at h
      have h1 : result = r := Except.ok.inj (congrArg Prod.fst h)
      have h3 : cacheWrite ⟨false, false⟩ cache (cacheKey req) (marshalResult result)
          = cache' := congrArg (fun t => t.2.2) h
      have hhit : cacheRead ⟨false, false⟩ cache' (cacheKey req) = some result := by
        rw [← h3]
        simp [cacheRead, cacheWrite, unmarshal_marshal]
      rw [checkBlacklist_hit d ⟨false, false⟩ cache' req result hhit, h1]
  · rw [checkBlacklist_hit d ⟨false, false⟩ cache req result hread] at h
    have h1 : result = r := Except.ok.inj (congrArg Prod.fst h)
    have h3 : cache = cache' := congrArg (fun t => t.2.2) h
    rw [← h3, checkBlacklist_hit d ⟨false, false⟩ cache req result hread, h1]

/-- C8 witness: concrete first call on an empty cache, then the same request
against the resulting cache returns the same outcome with zero provider
calls. -/
theorem second_call_hits_cache_witness :
    checkBlacklist ⟨fun _ => .ok none, fun _ _ _ => .ok []⟩ ⟨false, false⟩
        [("blacklist:name:John Doe::0001-01-01", marshalResult noMatchResult)]
        ⟨"John Doe", "", "", GoTime.zero⟩ =
      (.ok noMatchResult, [],
        [("blacklist:name:John Doe::0001-01-01", marshalResult noMatchResult)]) :=
  second_call_hits_cache ⟨fun _ => .ok none, fun _ _ _ => .ok []⟩ []
    ⟨"John Doe", "", "", GoTime.zero⟩ noMatchResult
    [.fuzzyCall "John Doe" "" GoTime.zero]
    [("blacklist:name:John Doe::0001-01-01", marshalResult noMatchResult)] rfl

/-- C10: the HTTP check handler rejects with 400 — before any service call —
exactly when the body fails to decode, the decoded name is shorter than 3
bytes, or a present NIK fails the 16-ASCII-digit regex; every other request
is forwarded to the service (so a 1- or 2-character name is rejected even
though non-empty). -/
theorem handler_validation (r : ApiCheckRequest) :
    handleCheck none = .badRequest "Invalid request body" ∧
    (handleCheck (some r) = .callService (toServiceRequest r) ↔
      (3 ≤ r.name.utf8ByteSize ∧ ∀ nik, r.nik = some nik → nikMatches nik = true)) ∧
    ((∃ msg, handleCheck (some r) = .badRequest msg) ↔
      ¬(3 ≤ r.name.utf8ByteSize ∧ ∀ nik, r.nik = some nik → nikMatches nik = true)) := by
  by_cases hlen : r.name.utf8ByteSize < 3
  · have hval : handleCheck (some r) = .badRequest "Name must be at least 3 characters long" := by
      rw [handleCheck, if_pos hlen]
    refine ⟨rfl, ⟨fun h => ?_, fun h => ?_⟩, ⟨fun _ => ?_, fun _ => ⟨_, hval⟩⟩⟩
    · rw [hval] at h; injection h
    · exact absurd h.1 (by omega)
    · rintro ⟨h3, -⟩; omega
  · rcases hnik : r.nik with - | nik
    · have hval : handleCheck (some r) = .callService (toServiceRequest r) := by
        rw [handleCheck, if_neg hlen, hnik]
      have hcond : 3 ≤ r.name.utf8ByteSize ∧
          ∀ nik, (none : Option String) = some nik → nikMatches nik = true :=
        ⟨by omega, fun nik hn => nomatch hn⟩
      refine ⟨rfl, ⟨fun _ => hcond, fun _ => hval⟩,
        ⟨fun hex => ?_, fun hneg => absurd hcond hneg⟩⟩
      obtain ⟨msg, hmsg⟩ := hex
      rw [hval] at hmsg
      injection hmsg
    · by_cases hm : nikMatches nik = true
      · have hval : handleCheck (some r) = .callService (toServiceRequest r) := by
          simp only [handleCheck, if_neg hlen, hnik, hm, Bool.not_true]
          rfl
        have hcond : 3 ≤ r.name.utf8ByteSize ∧
            ∀ nik', (some nik : Option String) = some nik' → nikMatches nik' = true := by
          refine ⟨by omega, fun nik' hn => ?_⟩
          obtain rfl : nik = nik' := Option.some.inj hn
          exact hm
        refine ⟨rfl, ⟨fun _ => hcond, fun _ => hval⟩,
          ⟨fun hex => ?_, fun hneg => absurd hcond hneg⟩⟩
        obtain ⟨msg, hmsg⟩ := hex
        rw [hval] at hmsg
        injection hmsg
      · have hm' : nikMatches nik = false := by
          rwa [Bool.not_eq_true] at hm
        have hval : handleCheck (some r) = .badRequest "NIK must be a 16-digit number" := by
          simp only [handleCheck, if_neg hlen, hnik, hm', Bool.not_false]
          rfl
        have hncond : ¬(3 ≤ r.name.utf8ByteSize ∧
            ∀ nik', (some nik : Option String) = some nik' → nikMatches nik' = true) := by
          rintro ⟨-, hall⟩
          have hthis := hall nik rfl
          rw [hm'] at hthis
          exact Bool.false_ne_true hthis
        refine ⟨rfl, ⟨fun h => ?_, fun h => absurd h hncond⟩,
          ⟨fun _ => hncond, fun _ => ⟨_, hval⟩⟩⟩
        rw [hval] at h
        injection h

/-- C10 witness: a valid body (3+ byte name, well-formed 16-digit NIK) is
forwarded to the service with zero-defaulted optional fields. -/
theorem handler_validation_witness :
    handleCheck (some ⟨"John", some "1234567890123456", none, none⟩) =
      .callService (toServiceRequest ⟨"John", some "1234567890123456", none, none⟩) :=
  ((handler_validation ⟨"John", some "1234567890123456", none, none⟩).2.1).mpr
    ⟨by decide, fun nik h => by
      obtain rfl : "1234567890123456" = nik := Option.some.inj h
      decide⟩

end BlacklistCheck
